import Mathlib

/-!
Verification development for the boutiqueflow inventory-aging and
sell-through analytics engine (src/server.js).

The embedding models, over exact rational arithmetic and integer
millisecond timestamps:
  - the item_receipts and sales_transactions tables and their
    ON CONFLICT upserts (initDatabase, runNightlySync);
  - the SQL aggregations feeding the Aging and Velocity Engine
    (MAX(received_date) grouping, sold-quantity grouping, the
    category/vendor velocity CTE queries);
  - the dead-stock bucketing loop, the store-health window metrics,
    the live-inventory pagination loop, and the snapshot cache write
    of POST /api/inventory/sync and runNightlySync.

JavaScript semantics conventions used throughout:
  - `Math.floor(x)` on an exact rational is `ratFloor`;
  - `Math.round(x)` is `jsRound` (floor of x + 1/2, as in JS);
  - Postgres ROUND on a nonnegative numeric is `pgRound`;
  - `a || b` on numbers is `jsOrQ` (b when a is zero), on strings
    `jsOrStr` (b when a is empty);
  - timestamps are integers in milliseconds since the epoch, so one
    day is 86400000 and the SQL seconds-based arithmetic is scaled
    accordingly.
-/

/-- Floor of an exact rational, as an integer (JS Math.floor). -/
def ratFloor (q : ℚ) : Int := q.num.fdiv (q.den : Int)

/-- JS Math.round: floor of q + 1/2 (halves round toward positive infinity). -/
def jsRound (q : ℚ) : Int := ratFloor (q + 1/2)

/-- Postgres ROUND on numeric: halves round away from zero. -/
def pgRound (q : ℚ) : Int := if 0 ≤ q then ratFloor (q + 1/2) else -(ratFloor (-q + 1/2))

/-- JS Math.round(x * 100) / 100, the two-decimal rounding used for monetary values. -/
def round2 (q : ℚ) : ℚ := (jsRound (q * 100) : ℚ) / 100

/-- JS a || b on numbers: b when a is 0, else a. -/
def jsOrQ (a b : ℚ) : ℚ := if a = 0 then b else a

/-- JS a || b on strings: b when a is empty, else a. -/
def jsOrStr (a b : String) : String := if a = "" then b else a

/-- Math.floor((now - receivedDate) / (1000 * 60 * 60 * 24)) on millisecond timestamps. -/
def daysBetween (nowMs receivedMs : Int) : Int := (nowMs - receivedMs).fdiv 86400000

/-- Minimum of a list, none when empty (SQL MIN aggregate). -/
def listMinOf [LinearOrder α] : List α → Option α
  | [] => none
  | a :: l => some (l.foldl min a)

/-- Maximum of a list, none when empty (SQL MAX aggregate). -/
def listMaxOf [LinearOrder α] : List α → Option α
  | [] => none
  | a :: l => some (l.foldl max a)

/-- Fold of max with a seed, used for SQL MAX over a nonempty group. -/
def foldlMax [LinearOrder α] (a : α) (l : List α) : α := l.foldl max a

theorem le_foldlMax_self [LinearOrder α] (a : α) (l : List α) : a ≤ foldlMax a l := by
  induction l generalizing a with
  | nil => exact le_refl a
  | cons b t ih => exact le_trans (le_max_left a b) (ih (max a b))

theorem le_foldlMax_of_mem [LinearOrder α] {x : α} {l : List α} (a : α) (h : x ∈ l) :
    x ≤ foldlMax a l := by
  induction l generalizing a with
  | nil => cases h
  | cons b t ih =>
    rcases List.mem_cons.mp h with rfl | hx
    · exact le_trans (le_max_right a x) (le_foldlMax_self _ _)
    · exact ih (max a b) hx

theorem foldlMax_mem_or [LinearOrder α] (a : α) (l : List α) :
    foldlMax a l = a ∨ foldlMax a l ∈ l := by
  induction l generalizing a with
  | nil => exact Or.inl rfl
  | cons b t ih =>
    rcases ih (max a b) with h | h
    · rcases max_choice a b with hm | hm
      · exact Or.inl (by rw [foldlMax, List.foldl_cons] at *; rw [h, hm])
      · refine Or.inr (List.mem_cons.mpr (Or.inl ?_))
        rw [foldlMax, List.foldl_cons] at *; rw [h, hm]
    · exact Or.inr (List.mem_cons.mpr (Or.inr h))

/-- Insertion of an element into a sorted list, for the deterministic sort model. -/
def insertSorted (le : α → α → Bool) (a : α) : List α → List α
  | [] => [a]
  | b :: t => if le a b then a :: b :: t else b :: insertSorted le a t

/-- Insertion sort; models the ORDER BY of the SQL queries and the JS .sort calls. -/
def sortByLe (le : α → α → Bool) : List α → List α
  | [] => []
  | a :: t => insertSorted le a (sortByLe le t)

theorem mem_insertSorted (le : α → α → Bool) (a x : α) (l : List α) :
    x ∈ insertSorted le a l ↔ x = a ∨ x ∈ l := by
  induction l with
  | nil => simp [insertSorted]
  | cons b t ih =>
    by_cases h : le a b = true
    · simp only [insertSorted, if_pos h, List.mem_cons]
    · simp only [insertSorted, if_neg h, List.mem_cons, ih]
      tauto

theorem mem_sortByLe (le : α → α → Bool) (x : α) (l : List α) :
    x ∈ sortByLe le l ↔ x ∈ l := by
  induction l with
  | nil => exact Iff.rfl
  | cons a t ih => simp only [sortByLe, mem_insertSorted, ih, List.mem_cons]

theorem all_sortByLe (le : α → α → Bool) (p : α → Bool) (l : List α) :
    (sortByLe le l).all p = l.all p := by
  apply Bool.eq_iff_iff.mpr
  simp only [List.all_eq_true]
  constructor
  · intro h x hx; exact h x ((mem_sortByLe le x l).mpr hx)
  · intro h x hx; exact h x ((mem_sortByLe le x l).mp hx)

/-- Dedup commutes with filter (helper for the SQL GROUP BY model). -/
theorem dedup_filter_comm [DecidableEq α] (p : α → Bool) :
    ∀ l : List α, (l.filter p).dedup = l.dedup.filter p := by
  intro l
  induction l with
  | nil => rfl
  | cons a t ih =>
    by_cases hpa : p a = true
    · rw [List.filter_cons_of_pos hpa]
      by_cases hmem : a ∈ t
      · rw [List.dedup_cons_of_mem hmem,
            List.dedup_cons_of_mem (List.mem_filter.mpr ⟨hmem, hpa⟩), ih]
      · rw [List.dedup_cons_of_not_mem hmem,
            List.dedup_cons_of_not_mem (fun hc => hmem (List.mem_filter.mp hc).1),
            List.filter_cons_of_pos hpa, ih]
    · have hpa' : ¬(p a = true) := hpa
      rw [List.filter_cons_of_neg hpa']
      by_cases hmem : a ∈ t
      · rw [List.dedup_cons_of_mem hmem, ih]
      · rw [List.dedup_cons_of_not_mem hmem, List.filter_cons_of_neg hpa', ih]

/-- Generic upsert keyed by a natural unique constraint: replace on conflict
via the update function, append otherwise (Postgres INSERT ... ON CONFLICT). -/
def upsertBy [DecidableEq κ] (key : α → κ) (upd : α → α → α)
    (table : List α) (e : α) : List α :=
  if table.any (fun row => key row = key e) then
    table.map (fun row => if key row = key e then upd row e else row)
  else table ++ [e]

theorem upsertBy_map_key [DecidableEq κ] (key : α → κ) (upd : α → α → α)
    (hupd : ∀ a b, key a = key b → key (upd a b) = key b) (table : List α) (e : α)
    (h : table.any (fun row => key row = key e) = true) :
    (upsertBy key upd table e).map key = table.map key := by
  rw [upsertBy, if_pos h, List.map_map]
  refine List.map_congr_left ?_
  intro a _
  by_cases hk : key a = key e
  · simp only [Function.comp_apply, if_pos hk]
    exact (hupd a e hk).trans hk.symm
  · simp [hk]

theorem upsertBy_nodup [DecidableEq κ] (key : α → κ) (upd : α → α → α)
    (hupd : ∀ a b, key a = key b → key (upd a b) = key b) (table : List α) (e : α)
    (h : (table.map key).Nodup) : ((upsertBy key upd table e).map key).Nodup := by
  by_cases hany : table.any (fun row => key row = key e) = true
  · rw [upsertBy_map_key key upd hupd table e hany]; exact h
  · rw [upsertBy, if_neg hany, List.map_append]
    rw [List.nodup_append]
    refine ⟨h, List.nodup_singleton _, ?_⟩
    intro x hx
    simp only [List.map_cons, List.map_nil, List.mem_singleton]
    intro hxe
    rcases List.mem_map.mp hx with ⟨row, hrow, hkey⟩
    have : table.any (fun row => key row = key e) = true := by
      rw [List.any_eq_true]
      exact ⟨row, hrow, by simp [hkey, hxe]⟩
    exact hany this

theorem upsertBy_filter_key [DecidableEq κ] (key : α → κ) (upd : α → α → α)
    (hupd : ∀ a b, key a = key b → key (upd a b) = key b)
    (table : List α) (e : α) (old : α)
    (hnodup : (table.map key).Nodup) (hold : old ∈ table) (hkey : key old = key e) :
    (upsertBy key upd table e).filter (fun row => key row = key e) = [upd old e] := by
  have hany : table.any (fun row => key row = key e) = true := by
    rw [List.any_eq_true]; exact ⟨old, hold, by simp [hkey]⟩
  rw [upsertBy, if_pos hany]
  clear hany
  induction table with
  | nil => cases hold
  | cons a t ih =>
    rcases List.mem_cons.mp hold with rfl | holdt
    · simp only [List.map_cons, List.nodup_cons] at hnodup
      have hkue : key (upd old e) = key e := hupd old e hkey
      rw [List.map_cons, if_pos hkey, List.filter_cons_of_pos (by simp [hkue])]
      have hmapfil : (t.map fun row => if key row = key e then upd row e else row).filter
          (fun row => decide (key row = key e)) = [] := by
        rw [List.filter_eq_nil_iff]
        intro b hb
        rcases List.mem_map.mp hb with ⟨c, hc, hcb⟩
        have hck : ¬(key c = key e) := by
          intro hck
          exact hnodup.1 (List.mem_map.mpr ⟨c, hc, by rw [hck, hkey]⟩)
        rw [if_neg hck] at hcb
        subst hcb
        simp only [decide_eq_true_eq]
        exact hck
      rw [hmapfil]
    · simp only [List.map_cons, List.nodup_cons] at hnodup
      have hak : ¬(key a = key e) := by
        intro hak
        exact hnodup.1 (by
          rw [← hkey] at hak
          exact List.mem_map.mpr ⟨old, holdt, hak.symm⟩)
      rw [List.map_cons, if_neg hak, List.filter_cons_of_neg (by simp [hak])]
      exact ih hnodup.2 holdt

theorem mem_upsertBy_self [DecidableEq κ] (key : α → κ) (table : List α) (e : α) :
    e ∈ upsertBy key (fun _ b => b) table e := by
  by_cases hany : table.any (fun row => key row = key e) = true
  · rw [upsertBy, if_pos hany]
    rcases List.any_eq_true.mp hany with ⟨row, hrow, hk⟩
    simp only [decide_eq_true_eq] at hk
    exact List.mem_map.mpr ⟨row, hrow, by rw [if_pos hk]⟩
  · rw [upsertBy, if_neg hany]
    simp

/-- A row of the item_receipts table (initDatabase, src/server.js lines 152-168).
Field types follow the values actually written by the ingestion pipeline
(runNightlySync lines 1867-1891), which always supplies every column. -/
structure ItemReceipt where
  itemId : String
  receiptId : String
  receivedDate : Int
  qtyReceived : Int
  unitCost : ℚ
  itemName : String
  itemColor : String
  itemSize : String
  category : String
  vendor : String
deriving DecidableEq, Repr

/-- The natural unique key of item_receipts: UNIQUE(item_id, receipt_id). -/
def receiptKey (r : ItemReceipt) : String × String := (r.itemId, r.receiptId)

/-- Upsert into item_receipts: ON CONFLICT (item_id, receipt_id) DO UPDATE SET
every non-key column to the EXCLUDED value, so the conflicting row is replaced
wholesale by the new one (src/server.js lines 1867-1891). -/
def upsertItemReceipt (table : List ItemReceipt) (e : ItemReceipt) : List ItemReceipt :=
  upsertBy receiptKey (fun _ e => e) table e

/-- A row of the sales_transactions table (initDatabase, src/server.js lines 64-87).
Nullable columns are Option; transactionDate is a millisecond timestamp. -/
structure SalesTransaction where
  heartlandTicketId : String
  heartlandLineId : String
  customerId : Option String
  itemId : Option String
  transactionDate : Int
  dayOfWeek : Int
  hourOfDay : Int
  quantity : Int
  unitPrice : ℚ
  totalAmount : ℚ
  category : Option String
  vendor : Option String
  brand : Option String
  itemName : Option String
  itemSize : Option String
  itemColor : Option String
  locationName : Option String
deriving DecidableEq, Repr

/-- The natural unique key of sales_transactions: UNIQUE(heartland_ticket_id, heartland_line_id). -/
def saleKey (r : SalesTransaction) : String × String := (r.heartlandTicketId, r.heartlandLineId)

/-- The ON CONFLICT DO UPDATE SET clause of the sales_transactions upsert
(src/server.js lines 1583-1589): only customer_id, quantity, unit_price,
total_amount and location_name are refreshed from the EXCLUDED row. -/
def applySaleUpdate (row excluded : SalesTransaction) : SalesTransaction :=
  { row with
    customerId := excluded.customerId
    quantity := excluded.quantity
    unitPrice := excluded.unitPrice
    totalAmount := excluded.totalAmount
    locationName := excluded.locationName }

/-- Upsert into sales_transactions (src/server.js lines 1577-1608). -/
def upsertSalesTransaction (table : List SalesTransaction) (e : SalesTransaction) : List SalesTransaction :=
  upsertBy saleKey applySaleUpdate table e

/-- The rows of item_receipts for one item (the GROUP BY item_id groups of the
receive-date query, src/server.js lines 1151-1164). -/
def receiptRowsFor (receipts : List ItemReceipt) (itemId : String) : List ItemReceipt :=
  receipts.filter (fun r => r.itemId = itemId)

/-- One entry of the itemReceiveData lookup built from the
SELECT item_id, MAX(received_date), SUM(qty_received), MAX(item_name),
MAX(category), MAX(vendor), MAX(unit_cost) ... GROUP BY item_id query
(src/server.js lines 1151-1177). -/
structure ReceiveInfo where
  receivedDate : Int
  qtyReceived : Int
  name : String
  category : String
  vendor : String
  cost : ℚ
deriving DecidableEq, Repr

/-- itemReceiveData lookup: none when the item has no receipt rows, otherwise
the SQL aggregates over its group (MAX for received_date, name, category,
vendor and unit_cost; SUM for qty_received). -/
def itemReceiveData (receipts : List ItemReceipt) (itemId : String) : Option ReceiveInfo :=
  match receiptRowsFor receipts itemId with
  | [] => none
  | r0 :: rest => some {
      receivedDate := foldlMax r0.receivedDate (rest.map (·.receivedDate))
      qtyReceived := ((r0 :: rest).map (·.qtyReceived)).sum
      name := foldlMax r0.itemName (rest.map (·.itemName))
      category := foldlMax r0.category (rest.map (·.category))
      vendor := foldlMax r0.vendor (rest.map (·.vendor))
      cost := foldlMax r0.unitCost (rest.map (·.unitCost)) }

/-- One entry of the itemSoldData lookup built from the
SELECT item_id, SUM(quantity), MAX(unit_price) FROM sales_transactions
WHERE item_id IS NOT NULL GROUP BY item_id query (src/server.js lines 1180-1196). -/
structure SoldInfo where
  qtySold : Int
  price : ℚ
deriving DecidableEq, Repr

/-- itemSoldData lookup: none when the item has no sales rows. -/
def itemSoldData (sales : List SalesTransaction) (itemId : String) : Option SoldInfo :=
  match sales.filter (fun r => r.itemId = some itemId) with
  | [] => none
  | r0 :: rest => some {
      qtySold := ((r0 :: rest).map (·.quantity)).sum
      price := foldlMax r0.unitPrice (rest.map (·.unitPrice)) }

/-- A row of the live Heartland inventory feed at
/inventory/values?group[]=item_id (src/server.js lines 1206-1224):
item_id may be absent and qty_on_hand may be absent (JS falls back to 0). -/
structure InvRow where
  itemId : Option String
  qtyOnHand : Option Int
deriving DecidableEq, Repr

/-- The inventoryLookup dictionary (src/server.js lines 1219-1224): for each
fetched row with a truthy item_id, qty_on_hand || 0; later rows win. -/
def inventoryLookup (allInventory : List InvRow) (itemId : String) : Int :=
  (((allInventory.filter (fun inv => inv.itemId = some itemId)).map
    (fun inv => inv.qtyOnHand.getD 0)).getLast?).getD 0

/-- The paginated inventory fetch loop (src/server.js lines 1200-1215):
while a full page of 100 comes back and page <= 100, append the results;
a fetch error on any page stops the loop and keeps what was gathered. -/
def fetchPages (fetch : Nat → Except Unit (List InvRow)) : Nat → Nat → List InvRow → List InvRow
  | 0, _, acc => acc
  | fuel + 1, page, acc =>
    if 100 < page then acc
    else
      match fetch page with
      | Except.error _ => acc
      | Except.ok results =>
        if results.length = 100 then fetchPages fetch fuel (page + 1) (acc ++ results)
        else acc ++ results

/-- allInventory as gathered by the fetch loop starting at page 1. -/
def allInventoryOf (fetch : Nat → Except Unit (List InvRow)) : List InvRow :=
  fetchPages fetch 100 1 []

/-- Row predicate of the velocity CTEs (src/server.js lines 1087-1092 for
categories, 1112-1117 for vendors): the grouping key is non-null and not the
excluded placeholder, and the sale falls in the 180-day window. -/
def windowFilter (keyOf : SalesTransaction → Option String) (bad : String)
    (nowMs : Int) (r : SalesTransaction) : Bool :=
  (match keyOf r with
   | some k => decide (k ≠ bad)
   | none => false) && decide (nowMs - 180 * 86400000 < r.transactionDate)

/-- The sales rows in the velocity window. -/
def windowRows (keyOf : SalesTransaction → Option String) (bad : String)
    (nowMs : Int) (sales : List SalesTransaction) : List SalesTransaction :=
  sales.filter (windowFilter keyOf bad nowMs)

/-- The transaction dates of one (key, item_id) CTE group. -/
def groupDates (keyOf : SalesTransaction → Option String) (bad : String)
    (nowMs : Int) (sales : List SalesTransaction) (k : String) (i : Option String) : List Int :=
  ((windowRows keyOf bad nowMs sales).filter
    (fun r => decide (keyOf r = some k ∧ r.itemId = i))).map (·.transactionDate)

/-- The item_id values grouped under one key in the CTE (GROUP BY key, item_id). -/
def itemKeysFor (keyOf : SalesTransaction → Option String) (bad : String)
    (nowMs : Int) (sales : List SalesTransaction) (k : String) : List (Option String) :=
  (((windowRows keyOf bad nowMs sales).filter
    (fun r => decide (keyOf r = some k))).map (·.itemId)).dedup

/-- WHERE first_sale != last_sale: a CTE group survives into the outer query
exactly when its MIN(transaction_date) differs from its MAX(transaction_date);
an empty group (no rows) does not exist at all. -/
def qualifies (keyOf : SalesTransaction → Option String) (bad : String)
    (nowMs : Int) (sales : List SalesTransaction) (k : String) (i : Option String) : Bool :=
  decide (listMinOf (groupDates keyOf bad nowMs sales k i) ≠
          listMaxOf (groupDates keyOf bad nowMs sales k i))

/-- EXTRACT(EPOCH FROM (last_sale - first_sale)) / 86400 for one group, on
millisecond timestamps (hence the 86400000 divisor). -/
def spanDays (ds : List Int) : ℚ :=
  (((listMaxOf ds).getD 0 - (listMinOf ds).getD 0 : Int) : ℚ) / 86400000

/-- The groups of one key that survive WHERE first_sale != last_sale. -/
def qualItemsFor (keyOf : SalesTransaction → Option String) (bad : String)
    (nowMs : Int) (sales : List SalesTransaction) (k : String) : List (Option String) :=
  (itemKeysFor keyOf bad nowMs sales k).filter (qualifies keyOf bad nowMs sales k)

/-- COUNT(DISTINCT item_id) over the surviving groups of one key: NULL
item_id values are not counted by the SQL aggregate. -/
def itemsSoldFor (keyOf : SalesTransaction → Option String) (bad : String)
    (nowMs : Int) (sales : List SalesTransaction) (k : String) : Nat :=
  ((qualItemsFor keyOf bad nowMs sales k).filter (fun i => i.isSome)).length

/-- Sum of the per-group day spans over the surviving groups of one key. -/
def sumSpansFor (keyOf : SalesTransaction → Option String) (bad : String)
    (nowMs : Int) (sales : List SalesTransaction) (k : String) : ℚ :=
  ((qualItemsFor keyOf bad nowMs sales k).map
    (fun i => spanDays (groupDates keyOf bad nowMs sales k i))).sum

/-- ROUND(AVG(EXTRACT(EPOCH FROM (last_sale - first_sale)) / 86400))::int for
one key (the arithmetic mean over its surviving groups, rounded). -/
def avgDaysFor (keyOf : SalesTransaction → Option String) (bad : String)
    (nowMs : Int) (sales : List SalesTransaction) (k : String) : Int :=
  pgRound (sumSpansFor keyOf bad nowMs sales k /
           ((qualItemsFor keyOf bad nowMs sales k).length : ℚ))

/-- The distinct keys present in the window (the outer GROUP BY key). -/
def keysFor (keyOf : SalesTransaction → Option String) (bad : String)
    (nowMs : Int) (sales : List SalesTransaction) : List String :=
  ((windowRows keyOf bad nowMs sales).filterMap keyOf).dedup

/-- One entry of the velocity ranking as built by the JS .map
(src/server.js lines 1130-1135): name, avgDaysToSell (parseInt of the SQL
integer), itemsSold (parseInt of COUNT(DISTINCT item_id)). -/
structure VelocityEntry where
  name : String
  avgDaysToSell : Int
  itemsSold : Nat
deriving DecidableEq, Repr

/-- The JS-side entry for one key. -/
def mkVelocityEntry (keyOf : SalesTransaction → Option String) (bad : String)
    (nowMs : Int) (sales : List SalesTransaction) (k : String) : VelocityEntry :=
  { name := k
    avgDaysToSell := avgDaysFor keyOf bad nowMs sales k
    itemsSold := itemsSoldFor keyOf bad nowMs sales k }

/-- The full velocity ranking for one key projection: keep keys passing
HAVING COUNT(DISTINCT item_id) >= 3, ORDER BY avg_days_to_sell ASC, then the
JS .filter(v => v.avgDaysToSell > 0) (src/server.js lines 1080-1144). -/
def velocityList (keyOf : SalesTransaction → Option String) (bad : String)
    (nowMs : Int) (sales : List SalesTransaction) : List VelocityEntry :=
  (sortByLe (fun a b => a.avgDaysToSell ≤ b.avgDaysToSell)
    (((keysFor keyOf bad nowMs sales).filter
        (fun k => decide (3 ≤ itemsSoldFor keyOf bad nowMs sales k))).map
      (mkVelocityEntry keyOf bad nowMs sales))).filter
    (fun v => decide (0 < v.avgDaysToSell))

/-- The byCategory ranking (category != 'Uncategorized'). -/
def byCategory (nowMs : Int) (sales : List SalesTransaction) : List VelocityEntry :=
  velocityList (fun r => r.category) "Uncategorized" nowMs sales

/-- The byVendor ranking (vendor != 'Unknown'). -/
def byVendor (nowMs : Int) (sales : List SalesTransaction) : List VelocityEntry :=
  velocityList (fun r => r.vendor) "Unknown" nowMs sales

/-- Fixed dead-stock bucket of a daysSinceReceived value, mirroring the
if/else chain of src/server.js lines 1291-1315 (first match wins, evaluated
in descending order of threshold). -/
def bucketOf (daysSinceReceived : Int) : String :=
  if 120 ≤ daysSinceReceived then "emergency"
  else if 90 ≤ daysSinceReceived then "dead"
  else if 60 ≤ daysSinceReceived then "slow"
  else if 45 ≤ daysSinceReceived then "watch"
  else "fresh"

/-- Suggested markdown of a daysSinceReceived value (same chain). -/
def markdownOf (daysSinceReceived : Int) : Option String :=
  if 120 ≤ daysSinceReceived then some "60%+ off or bundle/donate"
  else if 90 ≤ daysSinceReceived then some "40-50% off"
  else if 60 ≤ daysSinceReceived then some "20-30% off"
  else if 45 ≤ daysSinceReceived then some "Watch closely"
  else none

/-- One element pushed onto deadStockItems (src/server.js lines 1319-1334).
The receivedDate field keeps the raw millisecond timestamp that the JS
formats to an ISO date string for display. -/
structure DeadStockEntry where
  id : String
  name : String
  category : String
  vendor : String
  qtyReceived : Int
  qtySold : Int
  qtyRemaining : Int
  price : ℚ
  retailValue : ℚ
  costValue : ℚ
  receivedDate : Int
  daysSinceReceived : Int
  bucket : String
  suggestedMarkdown : Option String
deriving DecidableEq, Repr

/-- Builds the deadStockItems element for one inventory row that reached the
45-day push (src/server.js lines 1278-1334). -/
def mkDeadStockEntry (nowMs : Int) (itemId : String) (qtyOnHand : Int)
    (receiveInfo : ReceiveInfo) (soldInfo : SoldInfo) : DeadStockEntry :=
  let daysSinceReceived := daysBetween nowMs receiveInfo.receivedDate
  let price := jsOrQ soldInfo.price (jsOrQ (receiveInfo.cost * (5/2)) 0)
  let cost := jsOrQ receiveInfo.cost (jsOrQ (price * (2/5)) 0)
  { id := itemId
    name := jsOrStr receiveInfo.name "Unknown Item"
    category := jsOrStr receiveInfo.category "Uncategorized"
    vendor := jsOrStr receiveInfo.vendor "Unknown"
    qtyReceived := receiveInfo.qtyReceived
    qtySold := soldInfo.qtySold
    qtyRemaining := qtyOnHand
    price := round2 price
    retailValue := round2 ((qtyOnHand : ℚ) * price)
    costValue := round2 ((qtyOnHand : ℚ) * cost)
    receivedDate := receiveInfo.receivedDate
    daysSinceReceived := daysSinceReceived
    bucket := bucketOf daysSinceReceived
    suggestedMarkdown := markdownOf daysSinceReceived }

/-- Accumulator of the dead-stock loop (src/server.js lines 1266-1268). -/
structure DSAcc where
  deadStockItems : List DeadStockEntry
  totalFresh : Nat
  totalWatch : Nat
  total60Days : Nat
  total90Days : Nat
  total120Days : Nat
  valueFresh : ℚ
  valueWatch : ℚ
  value60Days : ℚ
  value90Days : ℚ
  value120Days : ℚ
deriving DecidableEq, Repr

def initDSAcc : DSAcc :=
  { deadStockItems := [], totalFresh := 0, totalWatch := 0, total60Days := 0,
    total90Days := 0, total120Days := 0, valueFresh := 0, valueWatch := 0,
    value60Days := 0, value90Days := 0, value120Days := 0 }

/-- One iteration of the dead-stock loop (src/server.js lines 1270-1336):
skip rows without item_id, rows with qty_on_hand <= 0 and items without
receive data; bucket the rest by daysSinceReceived and push items 45 days
or older onto deadStockItems. -/
def dsStep (nowMs : Int) (receiveData : String → Option ReceiveInfo)
    (soldData : String → Option SoldInfo) (acc : DSAcc) (inv : InvRow) : DSAcc :=
  match inv.itemId with
  | none => acc
  | some itemId =>
    let qtyOnHand := inv.qtyOnHand.getD 0
    if qtyOnHand ≤ 0 then acc
    else
      match receiveData itemId with
      | none => acc
      | some receiveInfo =>
        let soldInfo := (soldData itemId).getD { qtySold := 0, price := 0 }
        let daysSinceReceived := daysBetween nowMs receiveInfo.receivedDate
        let price := jsOrQ soldInfo.price (jsOrQ (receiveInfo.cost * (5/2)) 0)
        let cost := jsOrQ receiveInfo.cost (jsOrQ (price * (2/5)) 0)
        let valueOnHand := (qtyOnHand : ℚ) * cost
        let acc1 :=
          if 120 ≤ daysSinceReceived then
            { acc with total120Days := acc.total120Days + 1,
                       value120Days := acc.value120Days + valueOnHand }
          else if 90 ≤ daysSinceReceived then
            { acc with total90Days := acc.total90Days + 1,
                       value90Days := acc.value90Days + valueOnHand }
          else if 60 ≤ daysSinceReceived then
            { acc with total60Days := acc.total60Days + 1,
                       value60Days := acc.value60Days + valueOnHand }
          else if 45 ≤ daysSinceReceived then
            { acc with totalWatch := acc.totalWatch + 1,
                       valueWatch := acc.valueWatch + valueOnHand }
          else
            { acc with totalFresh := acc.totalFresh + 1,
                       valueFresh := acc.valueFresh + valueOnHand }
        if 45 ≤ daysSinceReceived then
          { acc1 with deadStockItems :=
              acc1.deadStockItems ++ [mkDeadStockEntry nowMs itemId qtyOnHand receiveInfo soldInfo] }
        else acc1

/-- The whole dead-stock computation: fold the loop over allInventory, then
sort deadStockItems descending by daysSinceReceived (src/server.js line 1338). -/
def deadStockCalc (nowMs : Int) (allInventory : List InvRow)
    (receiveData : String → Option ReceiveInfo)
    (soldData : String → Option SoldInfo) : DSAcc :=
  let folded := allInventory.foldl (dsStep nowMs receiveData soldData) initDSAcc
  let sorted := sortByLe (fun a b => b.daysSinceReceived ≤ a.daysSinceReceived) folded.deadStockItems
  { folded with deadStockItems := sorted }

/-- Accumulator of the store-health loop (src/server.js lines 1229-1230). -/
structure SHAcc where
  totalReceivedCost30 : ℚ
  totalReceivedCost45 : ℚ
  totalReceivedCost60 : ℚ
  totalReceivedCost90 : ℚ
  stillOnHandCost30 : ℚ
  stillOnHandCost45 : ℚ
  stillOnHandCost60 : ℚ
  stillOnHandCost90 : ℚ
deriving DecidableEq, Repr

def initSHAcc : SHAcc :=
  { totalReceivedCost30 := 0, totalReceivedCost45 := 0, totalReceivedCost60 := 0,
    totalReceivedCost90 := 0, stillOnHandCost30 := 0, stillOnHandCost45 := 0,
    stillOnHandCost60 := 0, stillOnHandCost90 := 0 }

/-- One iteration of the store-health loop (src/server.js lines 1232-1262):
for every item with receive data, add its total received cost value and its
cost on hand into each window whose length daysSinceReceived fits. -/
def shStep (nowMs : Int) (receipts : List ItemReceipt) (invLookup : String → Int)
    (acc : SHAcc) (itemId : String) : SHAcc :=
  match itemReceiveData receipts itemId with
  | none => acc
  | some receiveInfo =>
    let daysSinceReceived := daysBetween nowMs receiveInfo.receivedDate
    let qtyOnHand := invLookup itemId
    let cost := jsOrQ receiveInfo.cost 0
    let totalReceivedCostValue := (receiveInfo.qtyReceived : ℚ) * cost
    let costOnHand := (qtyOnHand : ℚ) * cost
    { totalReceivedCost30 := acc.totalReceivedCost30 +
        (if daysSinceReceived ≤ 30 then totalReceivedCostValue else 0)
      stillOnHandCost30 := acc.stillOnHandCost30 +
        (if daysSinceReceived ≤ 30 then costOnHand else 0)
      totalReceivedCost45 := acc.totalReceivedCost45 +
        (if daysSinceReceived ≤ 45 then totalReceivedCostValue else 0)
      stillOnHandCost45 := acc.stillOnHandCost45 +
        (if daysSinceReceived ≤ 45 then costOnHand else 0)
      totalReceivedCost60 := acc.totalReceivedCost60 +
        (if daysSinceReceived ≤ 60 then totalReceivedCostValue else 0)
      stillOnHandCost60 := acc.stillOnHandCost60 +
        (if daysSinceReceived ≤ 60 then costOnHand else 0)
      totalReceivedCost90 := acc.totalReceivedCost90 +
        (if daysSinceReceived ≤ 90 then totalReceivedCostValue else 0)
      stillOnHandCost90 := acc.stillOnHandCost90 +
        (if daysSinceReceived ≤ 90 then costOnHand else 0) }

/-- The store-health loop over Object.keys(itemReceiveData), i.e. the distinct
item ids of item_receipts. -/
def storeHealth (nowMs : Int) (receipts : List ItemReceipt)
    (invLookup : String → Int) : SHAcc :=
  ((receipts.map (·.itemId)).dedup).foldl (shStep nowMs receipts invLookup) initSHAcc

/-- The storeMetrics object of the snapshot (src/server.js lines 1358-1371). -/
structure StoreMetrics where
  received30Days : Int
  stillOnHand30Days : Int
  pctOnHand30Days : Int
  received45Days : Int
  stillOnHand45Days : Int
  pctOnHand45Days : Int
  received60Days : Int
  stillOnHand60Days : Int
  pctOnHand60Days : Int
  received90Days : Int
  stillOnHand90Days : Int
  pctOnHand90Days : Int
deriving DecidableEq, Repr

/-- Builds storeMetrics from the accumulated window totals: Math.round of the
totals and the guarded percentage (0 unless the received total is positive). -/
def mkStoreMetrics (a : SHAcc) : StoreMetrics :=
  { received30Days := jsRound a.totalReceivedCost30
    stillOnHand30Days := jsRound a.stillOnHandCost30
    pctOnHand30Days := if 0 < a.totalReceivedCost30 then
      jsRound (a.stillOnHandCost30 / a.totalReceivedCost30 * 100) else 0
    received45Days := jsRound a.totalReceivedCost45
    stillOnHand45Days := jsRound a.stillOnHandCost45
    pctOnHand45Days := if 0 < a.totalReceivedCost45 then
      jsRound (a.stillOnHandCost45 / a.totalReceivedCost45 * 100) else 0
    received60Days := jsRound a.totalReceivedCost60
    stillOnHand60Days := jsRound a.stillOnHandCost60
    pctOnHand60Days := if 0 < a.totalReceivedCost60 then
      jsRound (a.stillOnHandCost60 / a.totalReceivedCost60 * 100) else 0
    received90Days := jsRound a.totalReceivedCost90
    stillOnHand90Days := jsRound a.stillOnHandCost90
    pctOnHand90Days := if 0 < a.totalReceivedCost90 then
      jsRound (a.stillOnHandCost90 / a.totalReceivedCost90 * 100) else 0 }

/-- The deadStock.summary object (src/server.js lines 1344-1357). -/
structure DeadStockSummary where
  itemsFresh : Nat
  itemsWatch : Nat
  items60Days : Nat
  items90Days : Nat
  items120Days : Nat
  valueFresh : ℚ
  valueWatch : ℚ
  value60Days : ℚ
  value90Days : ℚ
  value120Days : ℚ
  totalItems : Nat
  totalValue : ℚ
deriving DecidableEq, Repr

def mkDeadStockSummary (d : DSAcc) : DeadStockSummary :=
  { itemsFresh := d.totalFresh
    itemsWatch := d.totalWatch
    items60Days := d.total60Days
    items90Days := d.total90Days
    items120Days := d.total120Days
    valueFresh := round2 d.valueFresh
    valueWatch := round2 d.valueWatch
    value60Days := round2 d.value60Days
    value90Days := round2 d.value90Days
    value120Days := round2 d.value120Days
    totalItems := d.totalWatch + d.total60Days + d.total90Days + d.total120Days
    totalValue := round2 (d.valueWatch + d.value60Days + d.value90Days + d.value120Days) }

/-- The stats object (src/server.js lines 1378-1382). -/
structure SyncStats where
  totalItemsAnalyzed : Nat
  totalItemsWithReceiveData : Nat
  totalDeadStockItems : Nat
deriving DecidableEq, Repr

/-- The analysisData payload written to inventory_cache (src/server.js
lines 1342-1383). -/
structure Snapshot where
  summary : DeadStockSummary
  storeMetrics : StoreMetrics
  items : List DeadStockEntry
  byCategory : List VelocityEntry
  byVendor : List VelocityEntry
  stats : SyncStats
deriving DecidableEq, Repr

/-- The whole Aging and Velocity Engine run of POST /api/inventory/sync
(src/server.js lines 1069-1405): velocity from sales, receive and sold
lookups from the tables, live inventory from the paginated fetch, store
health, dead stock, and the assembled snapshot. -/
def inventorySyncRun (receipts : List ItemReceipt) (sales : List SalesTransaction)
    (fetch : Nat → Except Unit (List InvRow)) (nowMs : Int) : Snapshot :=
  let allInventory := allInventoryOf fetch
  let sh := storeHealth nowMs receipts (inventoryLookup allInventory)
  let ds := deadStockCalc nowMs allInventory (itemReceiveData receipts) (itemSoldData sales)
  { summary := mkDeadStockSummary ds
    storeMetrics := mkStoreMetrics sh
    items := ds.deadStockItems
    byCategory := byCategory nowMs sales
    byVendor := byVendor nowMs sales
    stats := { totalItemsAnalyzed := allInventory.length
               totalItemsWithReceiveData := ((receipts.map (·.itemId)).dedup).length
               totalDeadStockItems := ds.deadStockItems.length } }

/-- The inventory_cache upsert at the end of the run (src/server.js lines
1385-1391): the new snapshot unconditionally replaces whatever was cached. -/
def cacheAfterSync (_prev : Option Snapshot) (snap : Snapshot) : Option Snapshot :=
  some snap

/-- The handler always reaches the cache write: the state of the
inventory_analysis cache row after a run of POST /api/inventory/sync. -/
def inventorySyncHandler (prev : Option Snapshot) (receipts : List ItemReceipt)
    (sales : List SalesTransaction) (fetch : Nat → Except Unit (List InvRow))
    (nowMs : Int) : Option Snapshot :=
  cacheAfterSync prev (inventorySyncRun receipts sales fetch nowMs)

/-- Sample receipt rows for the concrete upsert witnesses: the same
(item_id, receipt_id) document line ingested twice with differing values. -/
def sampleReceiptFirst : ItemReceipt :=
  { itemId := "item1", receiptId := "rcpt1", receivedDate := 86400000,
    qtyReceived := 5, unitCost := 10, itemName := "Dress - Red - M",
    itemColor := "Red", itemSize := "M", category := "Dresses", vendor := "Acme" }

def sampleReceiptSecond : ItemReceipt :=
  { sampleReceiptFirst with qtyReceived := 7, unitCost := 12 }

/-- C8: ingesting the same receiving document twice produces exactly one
item_receipts row per (item_id, receipt_id) pair, carrying the second
ingestion values; the unique-key invariant of the table is preserved, so
re-ingestion is an idempotent upsert rather than a duplicate insert. -/
theorem itemReceipt_upsert_idempotent :
    ∀ (table : List ItemReceipt) (r1 r2 : ItemReceipt),
      (table.map receiptKey).Nodup → receiptKey r1 = receiptKey r2 →
      ((upsertItemReceipt (upsertItemReceipt table r1) r2).filter
          (fun row => receiptKey row = receiptKey r2) = [r2]
        ∧ ((upsertItemReceipt (upsertItemReceipt table r1) r2).map receiptKey).Nodup) := by
  intro table r1 r2 hnd hk
  have hupd : ∀ (a b : ItemReceipt), receiptKey a = receiptKey b →
      receiptKey ((fun _ e => e : ItemReceipt → ItemReceipt → ItemReceipt) a b) = receiptKey b :=
    fun _ _ _ => rfl
  have hnd1 : ((upsertItemReceipt table r1).map receiptKey).Nodup :=
    upsertBy_nodup receiptKey (fun _ e => e) hupd table r1 hnd
  have hmem : r1 ∈ upsertItemReceipt table r1 := mem_upsertBy_self receiptKey table r1
  exact ⟨upsertBy_filter_key receiptKey (fun _ e => e) hupd
            (upsertItemReceipt table r1) r2 r1 hnd1 hmem hk,
         upsertBy_nodup receiptKey (fun _ e => e) hupd (upsertItemReceipt table r1) r2 hnd1⟩

/-- Concrete witness for C8: the sample document line ingested twice into an
empty table leaves exactly the second row. -/
theorem itemReceipt_upsert_idempotent_witness :
    (upsertItemReceipt (upsertItemReceipt [] sampleReceiptFirst) sampleReceiptSecond).filter
        (fun row => receiptKey row = receiptKey sampleReceiptSecond) = [sampleReceiptSecond] :=
  (itemReceipt_upsert_idempotent [] sampleReceiptFirst sampleReceiptSecond
    (by simp) rfl).1

/-- C9: when a sales_transactions upsert hits an existing
(heartland_ticket_id, heartland_line_id) row, the row is replaced by
applySaleUpdate old new, which refreshes quantity, unit_price and
total_amount to the new values while leaving category, vendor, brand,
item_name, item_size and item_color exactly as they were. -/
theorem salesTransaction_upsert_frame :
    ∀ (table : List SalesTransaction) (old e : SalesTransaction),
      (table.map saleKey).Nodup → old ∈ table → saleKey old = saleKey e →
      ((upsertSalesTransaction table e).filter
          (fun row => saleKey row = saleKey e) = [applySaleUpdate old e]
        ∧ (applySaleUpdate old e).quantity = e.quantity
        ∧ (applySaleUpdate old e).unitPrice = e.unitPrice
        ∧ (applySaleUpdate old e).totalAmount = e.totalAmount
        ∧ (applySaleUpdate old e).category = old.category
        ∧ (applySaleUpdate old e).vendor = old.vendor
        ∧ (applySaleUpdate old e).brand = old.brand
        ∧ (applySaleUpdate old e).itemName = old.itemName
        ∧ (applySaleUpdate old e).itemSize = old.itemSize
        ∧ (applySaleUpdate old e).itemColor = old.itemColor) := by
  intro table old e hnd hold hk
  have hupd : ∀ (a b : SalesTransaction), saleKey a = saleKey b →
      saleKey (applySaleUpdate a b) = saleKey b := fun _ _ h => h
  exact ⟨upsertBy_filter_key saleKey applySaleUpdate hupd table e old hnd hold hk,
         rfl, rfl, rfl, rfl, rfl, rfl, rfl, rfl, rfl⟩

/-- Sample sales rows for the concrete upsert witness: the same
(ticket, line) reported twice with a changed quantity and price. -/
def sampleSaleFirst : SalesTransaction :=
  { heartlandTicketId := "t100", heartlandLineId := "1", customerId := some "c1",
    itemId := some "item1", transactionDate := 86400000, dayOfWeek := 3,
    hourOfDay := 14, quantity := 1, unitPrice := 50, totalAmount := 50,
    category := some "Dresses", vendor := some "Acme", brand := some "B",
    itemName := some "Dress - Red - M", itemSize := some "M",
    itemColor := some "Red", locationName := some "Main" }

def sampleSaleSecond : SalesTransaction :=
  { sampleSaleFirst with
      quantity := 2
      unitPrice := 45
      totalAmount := 90
      category := some "Changed"
      vendor := some "Changed" }

/-- Concrete witness for C9: re-reporting the sample line replaces the row
with the refreshed quantities while the stored category stays the original. -/
theorem salesTransaction_upsert_frame_witness :
    ((upsertSalesTransaction [sampleSaleFirst] sampleSaleSecond).filter
        (fun row => saleKey row = saleKey sampleSaleSecond)
      = [applySaleUpdate sampleSaleFirst sampleSaleSecond]
    ∧ (applySaleUpdate sampleSaleFirst sampleSaleSecond).category = sampleSaleFirst.category) :=
  ⟨(salesTransaction_upsert_frame [sampleSaleFirst] sampleSaleFirst sampleSaleSecond
      (by simp) (by simp) rfl).1,
   (salesTransaction_upsert_frame [sampleSaleFirst] sampleSaleFirst sampleSaleSecond
      (by simp) (by simp) rfl).2.2.2.2.1⟩

/-- The deadStockItems list of one loop iteration either stays unchanged or
grows by exactly one entry built by mkDeadStockEntry for a row with positive
quantity on hand. -/
theorem dsStep_items_cases (nowMs : Int) (rd : String → Option ReceiveInfo)
    (sd : String → Option SoldInfo) (acc : DSAcc) (inv : InvRow) :
    (dsStep nowMs rd sd acc inv).deadStockItems = acc.deadStockItems
    ∨ ∃ itemId qty ri si, 0 < qty ∧
        (dsStep nowMs rd sd acc inv).deadStockItems =
          acc.deadStockItems ++ [mkDeadStockEntry nowMs itemId qty ri si] := by
  cases hid : inv.itemId with
  | none => left; simp [dsStep, hid]
  | some itemId =>
    simp only [dsStep, hid]
    by_cases hq : inv.qtyOnHand.getD 0 ≤ 0
    · left; rw [if_pos hq]
    · rw [if_neg hq]
      cases hrd : rd itemId with
      | none => left; rfl
      | some ri =>
        simp only []
        by_cases hd : 45 ≤ daysBetween nowMs ri.receivedDate
        · right
          refine ⟨itemId, inv.qtyOnHand.getD 0, ri,
            (sd itemId).getD { qtySold := 0, price := 0 }, by omega, ?_⟩
          rw [if_pos hd]
          split_ifs <;> rfl
        · left
          rw [if_neg hd]
          split_ifs <;> rfl

/-- All-entries invariant for the dead-stock fold. -/
theorem dsFold_items_all (nowMs : Int) (rd : String → Option ReceiveInfo)
    (sd : String → Option SoldInfo) (P : DeadStockEntry → Bool)
    (hP : ∀ itemId qty ri si, 0 < qty →
      P (mkDeadStockEntry nowMs itemId qty ri si) = true) :
    ∀ (l : List InvRow) (acc : DSAcc), acc.deadStockItems.all P = true →
      ((l.foldl (dsStep nowMs rd sd) acc).deadStockItems.all P) = true := by
  intro l
  induction l with
  | nil => intro acc hacc; exact hacc
  | cons a t ih =>
    intro acc hacc
    rw [List.foldl_cons]
    refine ih (dsStep nowMs rd sd acc a) ?_
    rcases dsStep_items_cases nowMs rd sd acc a with h | ⟨itemId, qty, ri, si, hq, h⟩
    · rw [h]; exact hacc
    · rw [h, List.all_append, hacc, Bool.true_and, List.all_cons, List.all_nil,
          Bool.and_true]
      exact hP itemId qty ri si hq

/-- All-entries invariant for the whole dead-stock computation. -/
theorem deadStockCalc_items_all (nowMs : Int) (inv : List InvRow)
    (rd : String → Option ReceiveInfo) (sd : String → Option SoldInfo)
    (P : DeadStockEntry → Bool)
    (hP : ∀ itemId qty ri si, 0 < qty →
      P (mkDeadStockEntry nowMs itemId qty ri si) = true) :
    ((deadStockCalc nowMs inv rd sd).deadStockItems.all P) = true := by
  show ((sortByLe _ ((inv.foldl (dsStep nowMs rd sd) initDSAcc).deadStockItems)).all P) = true
  rw [all_sortByLe]
  exact dsFold_items_all nowMs rd sd P hP inv initDSAcc rfl

/-- A fold ignores list elements on which the step function is the identity. -/
theorem foldl_filter_skip (step : β → α → β) (p : α → Bool)
    (hskip : ∀ acc x, p x = false → step acc x = acc) :
    ∀ (l : List α) (acc : β), (l.filter p).foldl step acc = l.foldl step acc := by
  intro l
  induction l with
  | nil => intro acc; rfl
  | cons a t ih =>
    intro acc
    by_cases hpa : p a = true
    · rw [List.filter_cons_of_pos hpa, List.foldl_cons, List.foldl_cons, ih]
    · rw [List.filter_cons_of_neg hpa, List.foldl_cons,
          hskip acc a (Bool.not_eq_true _ ▸ Bool.of_not_eq_true hpa), ih]

/-- C1: the dead-stock bucket is assigned from daysSinceReceived by the fixed
thresholds in descending order with first match winning; the eight boundary
values 44, 45, 59, 60, 89, 90, 119, 120 land in fresh, watch, watch, slow,
slow, dead, dead, emergency; and every entry produced by the dead-stock
computation carries exactly the bucket of its daysSinceReceived. -/
theorem bucket_thresholds_firstMatch :
    (∀ d : Int,
        (120 ≤ d → bucketOf d = "emergency")
      ∧ (90 ≤ d ∧ d < 120 → bucketOf d = "dead")
      ∧ (60 ≤ d ∧ d < 90 → bucketOf d = "slow")
      ∧ (45 ≤ d ∧ d < 60 → bucketOf d = "watch")
      ∧ (d < 45 → bucketOf d = "fresh"))
    ∧ (([44, 45, 59, 60, 89, 90, 119, 120] : List Int).map bucketOf =
        ["fresh", "watch", "watch", "slow", "slow", "dead", "dead", "emergency"])
    ∧ (∀ (nowMs : Int) (inv : List InvRow) (rd : String → Option ReceiveInfo)
         (sd : String → Option SoldInfo),
        ((deadStockCalc nowMs inv rd sd).deadStockItems.all
          (fun e => decide (e.bucket = bucketOf e.daysSinceReceived))) = true) := by
  refine ⟨?_, by decide, ?_⟩
  · intro d
    refine ⟨fun h => ?_, fun h => ?_, fun h => ?_, fun h => ?_, fun h => ?_⟩
    · rw [bucketOf, if_pos h]
    · rw [bucketOf, if_neg (by omega), if_pos h.1]
    · rw [bucketOf, if_neg (by omega), if_neg (by omega), if_pos h.1]
    · rw [bucketOf, if_neg (by omega), if_neg (by omega), if_neg (by omega), if_pos h.1]
    · rw [bucketOf, if_neg (by omega), if_neg (by omega), if_neg (by omega),
          if_neg (by omega)]
  · intro nowMs inv rd sd
    refine deadStockCalc_items_all nowMs inv rd sd _ ?_
    intro itemId qty ri si _
    simp [mkDeadStockEntry]

/-- Concrete witness for C1 at the 120 and 44 boundaries. -/
theorem bucket_thresholds_firstMatch_witness :
    bucketOf 120 = "emergency" ∧ bucketOf 44 = "fresh" :=
  ⟨(bucket_thresholds_firstMatch.1 120).1 (by decide),
   (bucket_thresholds_firstMatch.1 44).2.2.2.2 (by decide)⟩

/-- C4: inventory rows with qty_on_hand of zero or less contribute nothing to
the dead-stock computation (dropping them changes neither the bucket counts
and values nor the aging-items list), and every entry of the aging-items list
has a strictly positive remaining quantity. -/
theorem soldOut_items_excluded :
    ∀ (nowMs : Int) (inv : List InvRow) (rd : String → Option ReceiveInfo)
      (sd : String → Option SoldInfo),
      deadStockCalc nowMs (inv.filter (fun i => decide (0 < i.qtyOnHand.getD 0))) rd sd
        = deadStockCalc nowMs inv rd sd
      ∧ ((deadStockCalc nowMs inv rd sd).deadStockItems.all
          (fun e => decide (0 < e.qtyRemaining))) = true := by
  intro nowMs inv rd sd
  constructor
  · rw [deadStockCalc, deadStockCalc]
    rw [foldl_filter_skip (dsStep nowMs rd sd) _ ?_]
    intro acc x hx
    simp only [decide_eq_false_iff_not, not_lt] at hx
    cases hid : x.itemId with
    | none => simp [dsStep, hid]
    | some itemId =>
      simp only [dsStep, hid]
      rw [if_pos hx]
  · refine deadStockCalc_items_all nowMs inv rd sd _ ?_
    intro itemId qty ri si hq
    simp only [mkDeadStockEntry, decide_eq_true_eq]
    exact hq

/-- C3: the receive-date aggregation uses MAX(received_date): whenever an item
has receipt rows, the lookup carries a date that is one of its rows dates and
an upper bound of all of them; in particular with exactly two rows at T1 < T2
the engine bases daysSinceReceived on T2, not T1. -/
theorem lastReceived_is_max :
    (∀ (receipts : List ItemReceipt) (x : String) (info : ReceiveInfo),
        itemReceiveData receipts x = some info →
        info.receivedDate ∈ (receiptRowsFor receipts x).map (·.receivedDate)
        ∧ ∀ t ∈ (receiptRowsFor receipts x).map (·.receivedDate), t ≤ info.receivedDate)
    ∧ (∀ (r1 r2 : ItemReceipt) (x : String) (T1 T2 nowMs : Int),
        r1.itemId = x → r2.itemId = x → r1.receivedDate = T1 → r2.receivedDate = T2 →
        T1 < T2 →
        ((itemReceiveData [r1, r2] x).map (fun i => i.receivedDate) = some T2
         ∧ (itemReceiveData [r1, r2] x).map (fun i => daysBetween nowMs i.receivedDate)
             = some (daysBetween nowMs T2))) := by
  constructor
  · intro receipts x info hinfo
    cases hrows : receiptRowsFor receipts x with
    | nil => rw [itemReceiveData, hrows] at hinfo; cases hinfo
    | cons r0 rest =>
      rw [itemReceiveData, hrows] at hinfo
      have hdate : info.receivedDate = foldlMax r0.receivedDate (rest.map (·.receivedDate)) := by
        cases hinfo; rfl
      rw [hdate]
      constructor
      · rcases foldlMax_mem_or r0.receivedDate (rest.map (·.receivedDate)) with h | h
        · rw [h, List.map_cons]; exact List.mem_cons_self _ _
        · rw [List.map_cons]; exact List.mem_cons_of_mem _ h
      · intro t ht
        rw [List.map_cons] at ht
        rcases List.mem_cons.mp ht with rfl | ht
        · exact le_foldlMax_self _ _
        · exact le_foldlMax_of_mem _ ht
  · intro r1 r2 x T1 T2 nowMs h1 h2 hT1 hT2 hlt
    have hrows : receiptRowsFor [r1, r2] x = [r1, r2] := by
      simp [receiptRowsFor, h1, h2]
    rw [itemReceiveData, hrows]
    have : foldlMax r1.receivedDate ([r2].map (·.receivedDate)) = T2 := by
      simp only [List.map_cons, List.map_nil, foldlMax, List.foldl_cons, List.foldl_nil]
      rw [hT1, hT2]
      exact max_eq_right (le_of_lt hlt)
    simp only [Option.map_some]
    rw [this]
    exact ⟨rfl, rfl⟩

def sampleReceiptEarly : ItemReceipt :=
  { sampleReceiptFirst with receiptId := "rcptA", receivedDate := 100 * 86400000 }

def sampleReceiptLate : ItemReceipt :=
  { sampleReceiptFirst with receiptId := "rcptB", receivedDate := 150 * 86400000 }

/-- Concrete witness for C3: with receipts 100 and 150 days into the epoch,
the aggregated receive date is the later one. -/
theorem lastReceived_is_max_witness :
    (itemReceiveData [sampleReceiptEarly, sampleReceiptLate] "item1").map
        (fun i => i.receivedDate) = some (150 * 86400000)
    ∧ (itemReceiveData [sampleReceiptEarly, sampleReceiptLate] "item1").map
        (fun i => daysBetween (200 * 86400000) i.receivedDate)
      = some (daysBetween (200 * 86400000) (150 * 86400000)) :=
  lastReceived_is_max.2 sampleReceiptEarly sampleReceiptLate "item1"
    (100 * 86400000) (150 * 86400000) (200 * 86400000) rfl rfl rfl rfl (by decide)

/-- The rows of one item group all come from the receipts table. -/
theorem receiptRowsFor_subset (receipts : List ItemReceipt) (x : String) :
    ∀ r ∈ receiptRowsFor receipts x, r ∈ receipts := by
  intro r hr
  exact (List.mem_filter.mp hr).1

/-- Under nonnegative quantities and costs in item_receipts, the aggregated
cost and quantity per item are nonnegative. -/
theorem itemReceiveData_nonneg (receipts : List ItemReceipt) (x : String)
    (info : ReceiveInfo) (hinfo : itemReceiveData receipts x = some info)
    (hr : ∀ r ∈ receipts, 0 ≤ r.qtyReceived ∧ 0 ≤ r.unitCost) :
    0 ≤ info.cost ∧ 0 ≤ info.qtyReceived := by
  cases hrows : receiptRowsFor receipts x with
  | nil => rw [itemReceiveData, hrows] at hinfo; cases hinfo
  | cons r0 rest =>
    rw [itemReceiveData, hrows] at hinfo
    have hsub : ∀ r ∈ r0 :: rest, r ∈ receipts := by
      intro r hmem
      exact receiptRowsFor_subset receipts x r (hrows ▸ hmem)
    have hcost : info.cost = foldlMax r0.unitCost (rest.map (·.unitCost)) := by
      cases hinfo; rfl
    have hqty : info.qtyReceived = ((r0 :: rest).map (·.qtyReceived)).sum := by
      cases hinfo; rfl
    constructor
    · rw [hcost]
      exact le_trans (hr r0 (hsub r0 (List.mem_cons_self _ _))).2 (le_foldlMax_self _ _)
    · rw [hqty]
      refine List.sum_nonneg ?_
      intro q hq
      rcases List.mem_map.mp hq with ⟨r, hrmem, rfl⟩
      exact (hr r (hsub r hrmem)).1

/-- The received window totals of the store-health fold stay nonnegative. -/
theorem shFold_received_nonneg (nowMs : Int) (receipts : List ItemReceipt)
    (invLookup : String → Int)
    (hr : ∀ r ∈ receipts, 0 ≤ r.qtyReceived ∧ 0 ≤ r.unitCost) :
    ∀ (l : List String) (acc : SHAcc),
      0 ≤ acc.totalReceivedCost30 → 0 ≤ acc.totalReceivedCost45 →
      0 ≤ acc.totalReceivedCost60 → 0 ≤ acc.totalReceivedCost90 →
      (0 ≤ (l.foldl (shStep nowMs receipts invLookup) acc).totalReceivedCost30
       ∧ 0 ≤ (l.foldl (shStep nowMs receipts invLookup) acc).totalReceivedCost45
       ∧ 0 ≤ (l.foldl (shStep nowMs receipts invLookup) acc).totalReceivedCost60
       ∧ 0 ≤ (l.foldl (shStep nowMs receipts invLookup) acc).totalReceivedCost90) := by
  intro l
  induction l with
  | nil => intro acc h30 h45 h60 h90; exact ⟨h30, h45, h60, h90⟩
  | cons x t ih =>
    intro acc h30 h45 h60 h90
    rw [List.foldl_cons]
    have hstep : ∀ w : Int, True := fun _ => trivial
    cases hinfo : itemReceiveData receipts x with
    | none =>
      have : shStep nowMs receipts invLookup acc x = acc := by
        rw [shStep, hinfo]
      rw [this]
      exact ih acc h30 h45 h60 h90
    | some info =>
      have hnn := itemReceiveData_nonneg receipts x info hinfo hr
      have hval : 0 ≤ (info.qtyReceived : ℚ) * jsOrQ info.cost 0 := by
        refine mul_nonneg ?_ ?_
        · exact_mod_cast hnn.2
        · rw [jsOrQ]
          split_ifs with h
          · exact le_refl 0
          · exact hnn.1
      have hstep30 : 0 ≤ (shStep nowMs receipts invLookup acc x).totalReceivedCost30 := by
        rw [shStep, hinfo]
        refine add_nonneg h30 ?_
        split_ifs
        · exact hval
        · exact le_refl 0
      have hstep45 : 0 ≤ (shStep nowMs receipts invLookup acc x).totalReceivedCost45 := by
        rw [shStep, hinfo]
        refine add_nonneg h45 ?_
        split_ifs
        · exact hval
        · exact le_refl 0
      have hstep60 : 0 ≤ (shStep nowMs receipts invLookup acc x).totalReceivedCost60 := by
        rw [shStep, hinfo]
        refine add_nonneg h60 ?_
        split_ifs
        · exact hval
        · exact le_refl 0
      have hstep90 : 0 ≤ (shStep nowMs receipts invLookup acc x).totalReceivedCost90 := by
        rw [shStep, hinfo]
        refine add_nonneg h90 ?_
        split_ifs
        · exact hval
        · exact le_refl 0
      exact ih (shStep nowMs receipts invLookup acc x) hstep30 hstep45 hstep60 hstep90

/-- C7: for every store-health window, a zero received cost-basis total
yields a reported percentage of exactly 0, and a nonzero (hence positive,
given nonnegative ingested quantities and costs) total yields the rounded
ratio stillOnHand / received as an integer percentage. -/
theorem pctOnHand_safe :
    ∀ (nowMs : Int) (receipts : List ItemReceipt) (invLookup : String → Int),
      (∀ r ∈ receipts, 0 ≤ r.qtyReceived ∧ 0 ≤ r.unitCost) →
      (((storeHealth nowMs receipts invLookup).totalReceivedCost30 = 0 →
          (mkStoreMetrics (storeHealth nowMs receipts invLookup)).pctOnHand30Days = 0)
       ∧ ((storeHealth nowMs receipts invLookup).totalReceivedCost30 ≠ 0 →
          (mkStoreMetrics (storeHealth nowMs receipts invLookup)).pctOnHand30Days =
            jsRound ((storeHealth nowMs receipts invLookup).stillOnHandCost30 /
              (storeHealth nowMs receipts invLookup).totalReceivedCost30 * 100))
       ∧ ((storeHealth nowMs receipts invLookup).totalReceivedCost45 = 0 →
          (mkStoreMetrics (storeHealth nowMs receipts invLookup)).pctOnHand45Days = 0)
       ∧ ((storeHealth nowMs receipts invLookup).totalReceivedCost45 ≠ 0 →
          (mkStoreMetrics (storeHealth nowMs receipts invLookup)).pctOnHand45Days =
            jsRound ((storeHealth nowMs receipts invLookup).stillOnHandCost45 /
              (storeHealth nowMs receipts invLookup).totalReceivedCost45 * 100))
       ∧ ((storeHealth nowMs receipts invLookup).totalReceivedCost60 = 0 →
          (mkStoreMetrics (storeHealth nowMs receipts invLookup)).pctOnHand60Days = 0)
       ∧ ((storeHealth nowMs receipts invLookup).totalReceivedCost60 ≠ 0 →
          (mkStoreMetrics (storeHealth nowMs receipts invLookup)).pctOnHand60Days =
            jsRound ((storeHealth nowMs receipts invLookup).stillOnHandCost60 /
              (storeHealth nowMs receipts invLookup).totalReceivedCost60 * 100))
       ∧ ((storeHealth nowMs receipts invLookup).totalReceivedCost90 = 0 →
          (mkStoreMetrics (storeHealth nowMs receipts invLookup)).pctOnHand90Days = 0)
       ∧ ((storeHealth nowMs receipts invLookup).totalReceivedCost90 ≠ 0 →
          (mkStoreMetrics (storeHealth nowMs receipts invLookup)).pctOnHand90Days =
            jsRound ((storeHealth nowMs receipts invLookup).stillOnHandCost90 /
              (storeHealth nowMs receipts invLookup).totalReceivedCost90 * 100))) := by
  intro nowMs receipts invLookup hr
  have hnn := shFold_received_nonneg nowMs receipts invLookup hr
    ((receipts.map (·.itemId)).dedup) initSHAcc (le_refl 0) (le_refl 0) (le_refl 0) (le_refl 0)
  have h30 : 0 ≤ (storeHealth nowMs receipts invLookup).totalReceivedCost30 := hnn.1
  have h45 : 0 ≤ (storeHealth nowMs receipts invLookup).totalReceivedCost45 := hnn.2.1
  have h60 : 0 ≤ (storeHealth nowMs receipts invLookup).totalReceivedCost60 := hnn.2.2.1
  have h90 : 0 ≤ (storeHealth nowMs receipts invLookup).totalReceivedCost90 := hnn.2.2.2
  refine ⟨fun hz => ?_, fun hz => ?_, fun hz => ?_, fun hz => ?_,
          fun hz => ?_, fun hz => ?_, fun hz => ?_, fun hz => ?_⟩
  · simp only [mkStoreMetrics]; rw [if_neg (by rw [hz]; exact lt_irrefl 0)]
  · simp only [mkStoreMetrics]; rw [if_pos (lt_of_le_of_ne h30 (Ne.symm hz))]
  · simp only [mkStoreMetrics]; rw [if_neg (by rw [hz]; exact lt_irrefl 0)]
  · simp only [mkStoreMetrics]; rw [if_pos (lt_of_le_of_ne h45 (Ne.symm hz))]
  · simp only [mkStoreMetrics]; rw [if_neg (by rw [hz]; exact lt_irrefl 0)]
  · simp only [mkStoreMetrics]; rw [if_pos (lt_of_le_of_ne h60 (Ne.symm hz))]
  · simp only [mkStoreMetrics]; rw [if_neg (by rw [hz]; exact lt_irrefl 0)]
  · simp only [mkStoreMetrics]; rw [if_pos (lt_of_le_of_ne h90 (Ne.symm hz))]

/-- Concrete witness for C7: with no receipts every window total is 0 and the
reported percentage is 0; with one receipt of cost value 50 the 30-day window
total is nonzero and the percentage is the rounded ratio. -/
theorem pctOnHand_safe_witness :
    (mkStoreMetrics (storeHealth 0 ([] : List ItemReceipt) (fun _ => 0))).pctOnHand90Days = 0
    ∧ (mkStoreMetrics (storeHealth 0 [sampleReceiptFirst] (fun _ => 0))).pctOnHand30Days =
        jsRound ((storeHealth 0 [sampleReceiptFirst] (fun _ => 0)).stillOnHandCost30 /
          (storeHealth 0 [sampleReceiptFirst] (fun _ => 0)).totalReceivedCost30 * 100) := by
  have hkeys : ((([sampleReceiptFirst] : List ItemReceipt).map (·.itemId)).dedup) = ["item1"] := by
    decide
  have hrows : receiptRowsFor [sampleReceiptFirst] "item1" = [sampleReceiptFirst] := by
    decide
  have hne : (storeHealth 0 [sampleReceiptFirst] (fun _ => 0)).totalReceivedCost30 ≠ 0 := by
    rw [storeHealth, hkeys, List.foldl_cons, List.foldl_nil, shStep, itemReceiveData, hrows]
    simp only [List.map_nil, List.map_cons, foldlMax, List.foldl_nil, List.sum_cons,
      List.sum_nil, jsOrQ, initSHAcc]
    norm_num [sampleReceiptFirst, daysBetween]
    decide
  refine ⟨?_, (pctOnHand_safe 0 [sampleReceiptFirst] (fun _ => 0)
      (by norm_num [sampleReceiptFirst])).2.1 hne⟩
  refine (pctOnHand_safe 0 [] (fun _ => 0) (by simp)).2.2.2.2.2.2.1 ?_
  rw [storeHealth]
  rfl

/-- A fetch function whose every page errors, modelling an unreachable
upstream inventory endpoint. -/
def failingFetch : Nat → Except Unit (List InvRow) := fun _ => Except.error ()

/-- When the first inventory page fetch fails, the pagination loop ends with
an empty inventory list (src/server.js lines 1204-1215). -/
theorem allInventoryOf_error (fetch : Nat → Except Unit (List InvRow))
    (h : fetch 1 = Except.error ()) : allInventoryOf fetch = [] := by
  rw [allInventoryOf]
  show fetchPages fetch (99 + 1) 1 [] = []
  simp only [fetchPages, h]
  decide

/-- An arbitrary previously cached snapshot whose stats record one analyzed
item, used to exhibit that a failed live-inventory fetch does not preserve it. -/
def stalePriorSummary : DeadStockSummary :=
  { itemsFresh := 1
    itemsWatch := 0
    items60Days := 0
    items90Days := 0
    items120Days := 0
    valueFresh := 0
    valueWatch := 0
    value60Days := 0
    value90Days := 0
    value120Days := 0
    totalItems := 0
    totalValue := 0 }

def stalePriorMetrics : StoreMetrics :=
  { received30Days := 0
    stillOnHand30Days := 0
    pctOnHand30Days := 0
    received45Days := 0
    stillOnHand45Days := 0
    pctOnHand45Days := 0
    received60Days := 0
    stillOnHand60Days := 0
    pctOnHand60Days := 0
    received90Days := 0
    stillOnHand90Days := 0
    pctOnHand90Days := 0 }

def stalePriorSnapshot : Snapshot :=
  { summary := stalePriorSummary
    storeMetrics := stalePriorMetrics
    items := []
    byCategory := []
    byVendor := []
    stats := { totalItemsAnalyzed := 1
               totalItemsWithReceiveData := 1
               totalDeadStockItems := 0 } }

/-- Counterexample to C2 as stated: with the live-inventory fetch failing on
page 1 the handler still writes a snapshot, so the prior snapshot does not
remain cached; the new snapshot was computed from an empty inventory
(totalItemsAnalyzed = 0), not aborted. -/
theorem inventoryFetchFailure_counterexample :
    inventorySyncHandler (some stalePriorSnapshot) [] [] failingFetch 0
        ≠ some stalePriorSnapshot
    ∧ (inventorySyncRun [] [] failingFetch 0).stats.totalItemsAnalyzed = 0 := by
  constructor
  · intro h
    have h2 : inventorySyncRun [] [] failingFetch 0 = stalePriorSnapshot :=
      Option.some.inj h
    have h3 := congrArg (fun s => s.stats.totalItemsAnalyzed) h2
    exact absurd h3 (by decide)
  · decide

/-- C2 amended: a live-inventory fetch failure does not abort the run; the
pagination loop stops at the failing page, the engine continues with the
inventory gathered so far (empty when page 1 fails), and the resulting
snapshot is still written over the prior cache entry. -/
theorem inventoryFetchFailure_still_writes :
    ∀ (prev : Option Snapshot) (receipts : List ItemReceipt)
      (sales : List SalesTransaction) (fetch : Nat → Except Unit (List InvRow))
      (nowMs : Int),
      inventorySyncHandler prev receipts sales fetch nowMs
          = some (inventorySyncRun receipts sales fetch nowMs)
      ∧ (fetch 1 = Except.error () →
          (inventorySyncRun receipts sales fetch nowMs).stats.totalItemsAnalyzed = 0) := by
  intro prev receipts sales fetch nowMs
  refine ⟨rfl, fun h => ?_⟩
  show (allInventoryOf fetch).length = 0
  rw [allInventoryOf_error fetch h]
  rfl

/-- Concrete witness for the amended C2 at the failing fetch. -/
theorem inventoryFetchFailure_still_writes_witness :
    inventorySyncHandler none [] [] failingFetch 0
        = some (inventorySyncRun [] [] failingFetch 0)
    ∧ (inventorySyncRun [] [] failingFetch 0).stats.totalItemsAnalyzed = 0 :=
  ⟨(inventoryFetchFailure_still_writes none [] [] failingFetch 0).1,
   (inventoryFetchFailure_still_writes none [] [] failingFetch 0).2 rfl⟩

/-- ratFloor agrees with the mathematical floor on rationals. -/
theorem ratFloor_eq_floor (q : ℚ) : ratFloor q = ⌊q⌋ := by
  rw [ratFloor, Rat.floor_def]
  exact Int.fdiv_eq_ediv q.num (Int.natCast_nonneg q.den)

/-- Membership in a velocity ranking: exactly the keys present in the window
with at least 3 counted items and positive rounded average, mapped through
mkVelocityEntry. -/
theorem mem_velocityList (keyOf : SalesTransaction → Option String) (bad : String)
    (nowMs : Int) (sales : List SalesTransaction) (e : VelocityEntry) :
    e ∈ velocityList keyOf bad nowMs sales ↔
      ((∃ k, k ∈ keysFor keyOf bad nowMs sales
          ∧ e = mkVelocityEntry keyOf bad nowMs sales k
          ∧ 3 ≤ itemsSoldFor keyOf bad nowMs sales k)
        ∧ 0 < e.avgDaysToSell) := by
  rw [velocityList, List.mem_filter, mem_sortByLe, List.mem_map]
  constructor
  · rintro ⟨⟨k, hk, rfl⟩, hpos⟩
    rcases List.mem_filter.mp hk with ⟨hk2, h3⟩
    simp only [decide_eq_true_eq] at h3 hpos
    exact ⟨⟨k, hk2, rfl, h3⟩, hpos⟩
  · rintro ⟨⟨k, hk, rfl, h3⟩, hpos⟩
    simp only [decide_eq_true_eq] at hpos ⊢
    refine ⟨⟨k, List.mem_filter.mpr ⟨hk, by simpa using h3⟩, rfl⟩, by simpa using hpos⟩

/-- A key whose counted-item tally is positive occurs among the window keys. -/
theorem mem_keysFor_of_itemsSold_pos (keyOf : SalesTransaction → Option String)
    (bad : String) (nowMs : Int) (sales : List SalesTransaction) (k : String)
    (h : 0 < itemsSoldFor keyOf bad nowMs sales k) :
    k ∈ keysFor keyOf bad nowMs sales := by
  rw [itemsSoldFor] at h
  rcases List.exists_mem_of_length_pos h with ⟨i, hi⟩
  have hiq : i ∈ qualItemsFor keyOf bad nowMs sales k := (List.mem_filter.mp hi).1
  have hik : i ∈ itemKeysFor keyOf bad nowMs sales k := (List.mem_filter.mp hiq).1
  rw [itemKeysFor] at hik
  rcases List.mem_map.mp (List.mem_dedup.mp hik) with ⟨r, hr, _⟩
  rcases List.mem_filter.mp hr with ⟨hrw, hrk⟩
  simp only [decide_eq_true_eq] at hrk
  rw [keysFor]
  exact List.mem_dedup.mpr (List.mem_filterMap.mpr ⟨r, hrw, hrk⟩)

/-- C10: every entry of a velocity ranking has a strictly positive rounded
average days-to-sell, and a key whose rounded average is 0 never appears in
the ranking even when it has 3 or more counted items. -/
theorem velocity_entries_positive_avg :
    ∀ (keyOf : SalesTransaction → Option String) (bad : String) (nowMs : Int)
      (sales : List SalesTransaction),
      ((velocityList keyOf bad nowMs sales).all
          (fun e => decide (0 < e.avgDaysToSell)) = true)
      ∧ ∀ k, 3 ≤ itemsSoldFor keyOf bad nowMs sales k →
          avgDaysFor keyOf bad nowMs sales k = 0 →
          (velocityList keyOf bad nowMs sales).all
            (fun e => decide (e.name ≠ k)) = true := by
  intro keyOf bad nowMs sales
  constructor
  · rw [List.all_eq_true]
    intro e he
    have := ((mem_velocityList keyOf bad nowMs sales e).mp he).2
    simpa using this
  · intro k _ havg
    rw [List.all_eq_true]
    intro e he
    rcases (mem_velocityList keyOf bad nowMs sales e).mp he with ⟨⟨q, _, rfl, _⟩, hpos⟩
    simp only [decide_eq_true_eq]
    intro hname
    have hq : q = k := hname
    rw [mkVelocityEntry] at hpos
    simp only at hpos
    rw [hq, havg] at hpos
    exact lt_irrefl 0 hpos

/-- A minimal sale row constructor for concrete velocity scenarios. -/
def mkSale (tid item : String) (date : Int) (cat : String) : SalesTransaction :=
  { heartlandTicketId := tid, heartlandLineId := "0", customerId := none,
    itemId := some item, transactionDate := date, dayOfWeek := 0, hourOfDay := 0,
    quantity := 1, unitPrice := 0, totalAmount := 0, category := some cat,
    vendor := none, brand := none, itemName := none, itemSize := none,
    itemColor := none, locationName := none }

/-- The reference time of the concrete velocity scenarios (day 200). -/
def velNow : Int := 200 * 86400000

/-- Three items of category A, each sold twice 0.1 day apart around day 100:
three qualifying items whose mean days-to-sell rounds to 0. -/
def salesTinySpan : List SalesTransaction :=
  [ mkSale "t1" "i1" (100 * 86400000) "A",
    mkSale "t2" "i1" (100 * 86400000 + 8640000) "A",
    mkSale "t3" "i2" (100 * 86400000) "A",
    mkSale "t4" "i2" (100 * 86400000 + 8640000) "A",
    mkSale "t5" "i3" (100 * 86400000) "A",
    mkSale "t6" "i3" (100 * 86400000 + 8640000) "A" ]

theorem tinySpan_keys :
    keysFor (fun r => r.category) "Uncategorized" velNow salesTinySpan = ["A"] := by
  decide

theorem tinySpan_qualItems :
    qualItemsFor (fun r => r.category) "Uncategorized" velNow salesTinySpan "A"
      = [some "i1", some "i2", some "i3"] := by
  decide

theorem tinySpan_groupDates : ∀ i ∈ (["i1", "i2", "i3"] : List String),
    groupDates (fun r => r.category) "Uncategorized" velNow salesTinySpan "A" (some i)
      = [100 * 86400000, 100 * 86400000 + 8640000] := by
  decide

theorem tinySpan_spanDays :
    spanDays [(100 * 86400000 : Int), 100 * 86400000 + 8640000] = 1/10 := by
  have hmax : listMaxOf [(100 * 86400000 : Int), 100 * 86400000 + 8640000]
      = some (100 * 86400000 + 8640000) := by decide
  have hmin : listMinOf [(100 * 86400000 : Int), 100 * 86400000 + 8640000]
      = some (100 * 86400000) := by decide
  rw [spanDays, hmax, hmin]
  norm_num [Option.getD]

theorem tinySpan_avg :
    avgDaysFor (fun r => r.category) "Uncategorized" velNow salesTinySpan "A" = 0 := by
  have hsum : sumSpansFor (fun r => r.category) "Uncategorized" velNow salesTinySpan "A"
      = 3/10 := by
    rw [sumSpansFor, tinySpan_qualItems]
    rw [List.map_cons, List.map_cons, List.map_cons, List.map_nil]
    rw [tinySpan_groupDates "i1" (by decide), tinySpan_groupDates "i2" (by decide),
        tinySpan_groupDates "i3" (by decide), tinySpan_spanDays]
    norm_num
  rw [avgDaysFor, hsum, tinySpan_qualItems]
  have hlen : (([some "i1", some "i2", some "i3"] : List (Option String)).length : ℚ) = 3 := by
    norm_num
  rw [hlen]
  have hq : (3/10 : ℚ) / 3 = 1/10 := by norm_num
  rw [hq, pgRound, if_pos (by norm_num), ratFloor_eq_floor]
  have : (1/10 + 1/2 : ℚ) = 3/5 := by norm_num
  rw [this]
  refine Int.floor_eq_iff.mpr ?_
  constructor <;> norm_num

/-- Counterexample to C5 as stated: category A has exactly 3 contributing
items (each sold within the window with distinct first and last sale dates),
yet byCategory is empty, because the rounded mean days-to-sell of the group
is 0 and the JS post-filter drops it. -/
theorem velocity_exactly_three_excluded_counterexample :
    itemsSoldFor (fun r => r.category) "Uncategorized" velNow salesTinySpan "A" = 3
    ∧ byCategory velNow salesTinySpan = [] := by
  refine ⟨by decide, ?_⟩
  rw [byCategory, velocityList, tinySpan_keys]
  have hfil : (["A"].filter (fun k =>
      decide (3 ≤ itemsSoldFor (fun r => r.category) "Uncategorized" velNow salesTinySpan k)))
      = ["A"] := by decide
  rw [hfil, List.map_cons, List.map_nil]
  show List.filter _ (insertSorted _ (mkVelocityEntry _ _ _ _ "A") (sortByLe _ [])) = []
  rw [sortByLe, insertSorted, List.filter_cons]
  have hdec : (decide (0 < (mkVelocityEntry (fun r => r.category) "Uncategorized"
      velNow salesTinySpan "A").avgDaysToSell)) = false := by
    have : (mkVelocityEntry (fun r => r.category) "Uncategorized"
        velNow salesTinySpan "A").avgDaysToSell = 0 := tinySpan_avg
    rw [this]
    rfl
  rw [hdec]
  rfl

/-- C5 amended: a key with fewer than 3 counted items never appears in the
velocity ranking; a key with exactly 3 counted items appears (with its
rounded mean) provided that rounded mean days-to-sell is positive, the extra
condition imposed by the JS post-filter. -/
theorem velocity_sample_floor_amended :
    ∀ (keyOf : SalesTransaction → Option String) (bad : String) (nowMs : Int)
      (sales : List SalesTransaction) (k : String),
      (itemsSoldFor keyOf bad nowMs sales k < 3 →
        (velocityList keyOf bad nowMs sales).all (fun e => decide (e.name ≠ k)) = true)
      ∧ (itemsSoldFor keyOf bad nowMs sales k = 3 →
         0 < avgDaysFor keyOf bad nowMs sales k →
         (velocityList keyOf bad nowMs sales).any
           (fun e => decide (e.name = k ∧ e.itemsSold = 3
             ∧ e.avgDaysToSell = avgDaysFor keyOf bad nowMs sales k)) = true) := by
  intro keyOf bad nowMs sales k
  constructor
  · intro hlt
    rw [List.all_eq_true]
    intro e he
    rcases (mem_velocityList keyOf bad nowMs sales e).mp he with ⟨⟨q, _, rfl, h3⟩, _⟩
    simp only [decide_eq_true_eq]
    intro hname
    have hq : q = k := hname
    rw [hq] at h3
    omega
  · intro h3 hpos
    rw [List.any_eq_true]
    refine ⟨mkVelocityEntry keyOf bad nowMs sales k, ?_, ?_⟩
    · refine (mem_velocityList keyOf bad nowMs sales _).mpr ⟨⟨k, ?_, rfl, by omega⟩, hpos⟩
      exact mem_keysFor_of_itemsSold_pos keyOf bad nowMs sales k (by omega)
    · simp [mkVelocityEntry, h3]

/-- Three items of category B, each sold twice exactly 10 days apart around
day 100: three qualifying items with mean days-to-sell 10. -/
def salesTenDay : List SalesTransaction :=
  [ mkSale "u1" "j1" (100 * 86400000) "B",
    mkSale "u2" "j1" (110 * 86400000) "B",
    mkSale "u3" "j2" (100 * 86400000) "B",
    mkSale "u4" "j2" (110 * 86400000) "B",
    mkSale "u5" "j3" (100 * 86400000) "B",
    mkSale "u6" "j3" (110 * 86400000) "B" ]

theorem tenDay_qualItems :
    qualItemsFor (fun r => r.category) "Uncategorized" velNow salesTenDay "B"
      = [some "j1", some "j2", some "j3"] := by
  decide

theorem tenDay_groupDates : ∀ i ∈ (["j1", "j2", "j3"] : List String),
    groupDates (fun r => r.category) "Uncategorized" velNow salesTenDay "B" (some i)
      = [100 * 86400000, 110 * 86400000] := by
  decide

theorem tenDay_spanDays :
    spanDays [(100 * 86400000 : Int), 110 * 86400000] = 10 := by
  have hmax : listMaxOf [(100 * 86400000 : Int), 110 * 86400000]
      = some (110 * 86400000) := by decide
  have hmin : listMinOf [(100 * 86400000 : Int), 110 * 86400000]
      = some (100 * 86400000) := by decide
  rw [spanDays, hmax, hmin]
  norm_num [Option.getD]

theorem tenDay_avg :
    avgDaysFor (fun r => r.category) "Uncategorized" velNow salesTenDay "B" = 10 := by
  have hsum : sumSpansFor (fun r => r.category) "Uncategorized" velNow salesTenDay "B"
      = 30 := by
    rw [sumSpansFor, tenDay_qualItems]
    rw [List.map_cons, List.map_cons, List.map_cons, List.map_nil]
    rw [tenDay_groupDates "j1" (by decide), tenDay_groupDates "j2" (by decide),
        tenDay_groupDates "j3" (by decide), tenDay_spanDays]
    norm_num
  rw [avgDaysFor, hsum, tenDay_qualItems]
  have hlen : (([some "j1", some "j2", some "j3"] : List (Option String)).length : ℚ) = 3 := by
    norm_num
  rw [hlen]
  have hq : (30 : ℚ) / 3 = 10 := by norm_num
  rw [hq, pgRound, if_pos (by norm_num), ratFloor_eq_floor]
  have : (10 + 1/2 : ℚ) = 21/2 := by norm_num
  rw [this]
  refine Int.floor_eq_iff.mpr ?_
  constructor <;> norm_num

/-- Concrete witness for the amended C5: category B, exactly 3 contributing
items averaging 10 days, appears in the ranking with its mean. -/
theorem velocity_sample_floor_amended_witness :
    (velocityList (fun r => r.category) "Uncategorized" velNow salesTenDay).any
      (fun e => decide (e.name = "B" ∧ e.itemsSold = 3
        ∧ e.avgDaysToSell = avgDaysFor (fun r => r.category) "Uncategorized"
            velNow salesTenDay "B")) = true :=
  (velocity_sample_floor_amended (fun r => r.category) "Uncategorized" velNow
      salesTenDay "B").2 (by decide) (by rw [tenDay_avg]; decide)

/-- Concrete witness for C10: category A of the tiny-span scenario has 3
counted items but rounded average 0, and indeed never appears in the ranking. -/
theorem velocity_entries_positive_avg_witness :
    (velocityList (fun r => r.category) "Uncategorized" velNow salesTinySpan).all
      (fun e => decide (e.name ≠ "A")) = true :=
  (velocity_entries_positive_avg (fun r => r.category) "Uncategorized" velNow
      salesTinySpan).2 "A" (by decide) tinySpan_avg

theorem foldl_min_const (t : Int) :
    ∀ (l : List Int) (a : Int), (∀ x ∈ l, x = t) → a = t → l.foldl min a = t := by
  intro l
  induction l with
  | nil => intro a _ ha; exact ha
  | cons b u ih =>
    intro a hall ha
    rw [List.foldl_cons]
    refine ih (min a b) (fun x hx => hall x (List.mem_cons_of_mem _ hx)) ?_
    rw [ha, hall b (List.mem_cons_self _ _), min_self]

theorem foldl_max_const (t : Int) :
    ∀ (l : List Int) (a : Int), (∀ x ∈ l, x = t) → a = t → l.foldl max a = t := by
  intro l
  induction l with
  | nil => intro a _ ha; exact ha
  | cons b u ih =>
    intro a hall ha
    rw [List.foldl_cons]
    refine ih (max a b) (fun x hx => hall x (List.mem_cons_of_mem _ hx)) ?_
    rw [ha, hall b (List.mem_cons_self _ _), max_self]

/-- A list of timestamps that all coincide has equal MIN and MAX. -/
theorem listMinMax_const (ds : List Int) (t : Int) (h : ∀ x ∈ ds, x = t) :
    listMinOf ds = listMaxOf ds := by
  cases ds with
  | nil => rfl
  | cons a l =>
    rw [listMinOf, listMaxOf]
    rw [foldl_min_const t l a (fun x hx => h x (List.mem_cons_of_mem _ hx))
          (h a (List.mem_cons_self _ _)),
        foldl_max_const t l a (fun x hx => h x (List.mem_cons_of_mem _ hx))
          (h a (List.mem_cons_self _ _))]

/-- Deleting the rows of one item commutes with the window filter. -/
theorem windowRows_erase (keyOf : SalesTransaction → Option String) (bad : String)
    (nowMs : Int) (sales : List SalesTransaction) (p : SalesTransaction → Bool) :
    windowRows keyOf bad nowMs (sales.filter p)
      = (windowRows keyOf bad nowMs sales).filter p := by
  rw [windowRows, windowRows, List.filter_filter, List.filter_filter]
  refine List.filter_congr ?_
  intro a _
  exact Bool.and_comm _ _

/-- The CTE group of any other item is unaffected by deleting the rows of
item i. -/
theorem groupDates_erase (keyOf : SalesTransaction → Option String) (bad : String)
    (nowMs : Int) (sales : List SalesTransaction) (i : String) (k : String)
    (j : Option String) (hj : j ≠ some i) :
    groupDates keyOf bad nowMs (sales.filter (fun r => decide (r.itemId ≠ some i))) k j
      = groupDates keyOf bad nowMs sales k j := by
  rw [groupDates, groupDates, windowRows_erase, List.filter_filter]
  congr 1
  refine List.filter_congr ?_
  intro r _
  by_cases hki : keyOf r = some k ∧ r.itemId = j
  · simp [hki.1, hki.2, hj]
  · simp [hki]

/-- The CTE group of item i itself is empty once its rows are deleted. -/
theorem groupDates_erase_self (keyOf : SalesTransaction → Option String) (bad : String)
    (nowMs : Int) (sales : List SalesTransaction) (i : String) (k : String) :
    groupDates keyOf bad nowMs (sales.filter (fun r => decide (r.itemId ≠ some i))) k
      (some i) = [] := by
  rw [groupDates, windowRows_erase, List.filter_filter]
  have hnil : (windowRows keyOf bad nowMs sales).filter
      (fun r => decide (keyOf r = some k ∧ r.itemId = some i)
        && decide (r.itemId ≠ some i)) = [] := by
    rw [List.filter_eq_nil_iff]
    intro r _
    by_cases h : r.itemId = some i
    · simp [h]
    · simp [h]
  rw [hnil, List.map_nil]

/-- An item whose in-window sale rows all coincide at one timestamp never
qualifies (its MIN and MAX transaction dates are equal). -/
theorem qualifies_coincident_false (keyOf : SalesTransaction → Option String)
    (bad : String) (nowMs : Int) (sales : List SalesTransaction) (i : String)
    (t : Int) (k : String)
    (hyp : ∀ r ∈ sales, r.itemId = some i →
      windowFilter keyOf bad nowMs r = true → r.transactionDate = t) :
    qualifies keyOf bad nowMs sales k (some i) = false := by
  rw [qualifies]
  have hall : ∀ x ∈ groupDates keyOf bad nowMs sales k (some i), x = t := by
    intro x hx
    rw [groupDates] at hx
    rcases List.mem_map.mp hx with ⟨r, hr, rfl⟩
    rcases List.mem_filter.mp hr with ⟨hrw, hrki⟩
    rcases List.mem_filter.mp hrw with ⟨hrs, hrwf⟩
    simp only [decide_eq_true_eq] at hrki
    exact hyp r hrs hrki.2 hrwf
  rw [listMinMax_const _ t hall]
  simp

/-- After deleting the rows of item i, it does not qualify either. -/
theorem qualifies_erase_self (keyOf : SalesTransaction → Option String) (bad : String)
    (nowMs : Int) (sales : List SalesTransaction) (i : String) (k : String) :
    qualifies keyOf bad nowMs (sales.filter (fun r => decide (r.itemId ≠ some i))) k
      (some i) = false := by
  rw [qualifies, groupDates_erase_self]
  rfl

/-- The item groups of one key after deleting the rows of item i. -/
theorem itemKeysFor_erase (keyOf : SalesTransaction → Option String) (bad : String)
    (nowMs : Int) (sales : List SalesTransaction) (i : String) (k : String) :
    itemKeysFor keyOf bad nowMs (sales.filter (fun r => decide (r.itemId ≠ some i))) k
      = (itemKeysFor keyOf bad nowMs sales k).filter (fun j => decide (j ≠ some i)) := by
  rw [itemKeysFor, itemKeysFor, windowRows_erase, List.filter_filter]
  have key : ∀ w : List SalesTransaction,
      ((w.filter (fun r => decide (keyOf r = some k)
          && decide (r.itemId ≠ some i))).map (fun x => x.itemId))
        = (((w.filter (fun r => decide (keyOf r = some k))).map
            (fun x => x.itemId)).filter (fun j => decide (j ≠ some i))) := by
    intro w
    induction w with
    | nil => rfl
    | cons a s ih =>
      simp only [decide_not] at ih ⊢
      by_cases hk : keyOf a = some k
      · by_cases hni : a.itemId = some i
        · simp [List.filter_cons, hk, hni, ih]
        · simp [List.filter_cons, hk, hni, ih]
      · simp [List.filter_cons, hk, ih]
  rw [key, dedup_filter_comm]

/-- The qualifying groups of any key are unchanged by deleting the rows of an
item whose in-window sales coincide. -/
theorem qualItemsFor_erase (keyOf : SalesTransaction → Option String) (bad : String)
    (nowMs : Int) (sales : List SalesTransaction) (i : String) (t : Int) (k : String)
    (hyp : ∀ r ∈ sales, r.itemId = some i →
      windowFilter keyOf bad nowMs r = true → r.transactionDate = t) :
    qualItemsFor keyOf bad nowMs (sales.filter (fun r => decide (r.itemId ≠ some i))) k
      = qualItemsFor keyOf bad nowMs sales k := by
  rw [qualItemsFor, qualItemsFor, itemKeysFor_erase, List.filter_filter]
  refine List.filter_congr ?_
  intro j _
  by_cases hj : j = some i
  · subst hj
    rw [qualifies_erase_self, qualifies_coincident_false keyOf bad nowMs sales i t k hyp]
    rfl
  · rw [qualifies, qualifies, groupDates_erase keyOf bad nowMs sales i k j hj]
    have hdec : decide (j ≠ some i) = true := by simp [hj]
    rw [hdec, Bool.and_true]

/-- C6: an item whose in-window sale rows all coincide in time contributes
nothing to the velocity aggregation of any group: it never qualifies, and
deleting its rows changes neither the qualifying-group list, nor the counted
item tally, nor the summed day spans, nor the rounded mean days-to-sell. -/
theorem single_sale_contributes_nothing :
    ∀ (keyOf : SalesTransaction → Option String) (bad : String) (nowMs : Int)
      (sales : List SalesTransaction) (i : String) (t : Int),
      (∀ r ∈ sales, r.itemId = some i →
        windowFilter keyOf bad nowMs r = true → r.transactionDate = t) →
      ∀ k,
        qualifies keyOf bad nowMs sales k (some i) = false
        ∧ qualItemsFor keyOf bad nowMs
            (sales.filter (fun r => decide (r.itemId ≠ some i))) k
            = qualItemsFor keyOf bad nowMs sales k
        ∧ itemsSoldFor keyOf bad nowMs
            (sales.filter (fun r => decide (r.itemId ≠ some i))) k
            = itemsSoldFor keyOf bad nowMs sales k
        ∧ sumSpansFor keyOf bad nowMs
            (sales.filter (fun r => decide (r.itemId ≠ some i))) k
            = sumSpansFor keyOf bad nowMs sales k
        ∧ avgDaysFor keyOf bad nowMs
            (sales.filter (fun r => decide (r.itemId ≠ some i))) k
            = avgDaysFor keyOf bad nowMs sales k := by
  intro keyOf bad nowMs sales i t hyp k
  have hq := qualItemsFor_erase keyOf bad nowMs sales i t k hyp
  have hsum : sumSpansFor keyOf bad nowMs
      (sales.filter (fun r => decide (r.itemId ≠ some i))) k
      = sumSpansFor keyOf bad nowMs sales k := by
    rw [sumSpansFor, sumSpansFor, hq]
    refine congrArg List.sum ?_
    refine List.map_congr_left ?_
    intro j hj
    have hqual : qualifies keyOf bad nowMs sales k j = true := (List.mem_filter.mp hj).2
    have hj_ne : j ≠ some i := by
      intro hji
      rw [hji, qualifies_coincident_false keyOf bad nowMs sales i t k hyp] at hqual
      cases hqual
    rw [groupDates_erase keyOf bad nowMs sales i k j hj_ne]
  refine ⟨qualifies_coincident_false keyOf bad nowMs sales i t k hyp, hq, ?_, hsum, ?_⟩
  · rw [itemsSoldFor, itemsSoldFor, hq]
  · rw [avgDaysFor, avgDaysFor, hq, hsum]

/-- The ten-day scenario extended with one single-sale item x in category B. -/
def salesWithSingle : List SalesTransaction :=
  salesTenDay ++ [mkSale "ux" "x" (130 * 86400000) "B"]

/-- Concrete witness for C6: the single-sale item x does not qualify and its
deletion leaves the category B aggregation untouched. -/
theorem single_sale_contributes_nothing_witness :
    qualifies (fun r => r.category) "Uncategorized" velNow salesWithSingle "B"
        (some "x") = false
    ∧ qualItemsFor (fun r => r.category) "Uncategorized" velNow
        (salesWithSingle.filter (fun r => decide (r.itemId ≠ some "x"))) "B"
        = qualItemsFor (fun r => r.category) "Uncategorized" velNow salesWithSingle "B"
    ∧ itemsSoldFor (fun r => r.category) "Uncategorized" velNow
        (salesWithSingle.filter (fun r => decide (r.itemId ≠ some "x"))) "B"
        = itemsSoldFor (fun r => r.category) "Uncategorized" velNow salesWithSingle "B"
    ∧ sumSpansFor (fun r => r.category) "Uncategorized" velNow
        (salesWithSingle.filter (fun r => decide (r.itemId ≠ some "x"))) "B"
        = sumSpansFor (fun r => r.category) "Uncategorized" velNow salesWithSingle "B"
    ∧ avgDaysFor (fun r => r.category) "Uncategorized" velNow
        (salesWithSingle.filter (fun r => decide (r.itemId ≠ some "x"))) "B"
        = avgDaysFor (fun r => r.category) "Uncategorized" velNow salesWithSingle "B" :=
  single_sale_contributes_nothing (fun r => r.category) "Uncategorized" velNow
    salesWithSingle "x" (130 * 86400000) (by decide) "B"
